import Mathlib

/-!
Verification of the session-manager / token-lifecycle core of the
cashkaro mini-app (the `AuthProvider` React context and its helpers).

The embedding models:
* the Token Codec `getJwtExpiration` (including the `atob` base64 decode
  and a `JSON.parse` model),
* the Session Manager state (`AuthState`), durable storage
  (`localStorage` under the single key `cashkaro_auth`), and the single
  pending refresh timer,
* the operations `login`, `logout` (= `clearAuth`),
  `restoreAuthFromStorage`, `setupUserTokenRefresh` (timer arming and the
  timer callback body `fireRefresh`), and the bootstrap `initAuth`.

Network replies of the external Token Service and of the guest-token
fetch are injected as parameters; `Date.now()` is passed explicitly as
`now` (epoch milliseconds).
-/

namespace CKAuth

/-! ### Small string utilities (JS `split('.')` and `includes`) -/

/-- Model of JS `String.prototype.split` with a single-character
separator: splits into the list of (possibly empty) groups between
occurrences of `sep`.  `"".split(sep)` gives `[""]`. -/
def splitOnChar (sep : Char) : List Char → List (List Char)
  | [] => [[]]
  | c :: cs =>
    if c = sep then [] :: splitOnChar sep cs
    else
      match splitOnChar sep cs with
      | g :: gs => (c :: g) :: gs
      | [] => [[c]]

/-- Boolean test that `p` is an initial segment of `s`. -/
def startsWithSeq : List Char → List Char → Bool
  | [], _ => true
  | _ :: _, [] => false
  | p :: ps, c :: cs => p = c && startsWithSeq ps cs

/-- Boolean test that `pat` occurs contiguously inside `s`. -/
def hasSubSeq (pat : List Char) : List Char → Bool
  | [] => startsWithSeq pat []
  | c :: cs => startsWithSeq pat (c :: cs) || hasSubSeq pat cs

/-- Model of JS `s.includes(pat)` for the non-empty patterns used in the
source. -/
def jsIncludes (s pat : String) : Bool :=
  hasSubSeq pat.toList s.toList

/-- Error classification of the refresh `catch` branch in
`setupUserTokenRefresh`: `errorMessage.includes('401') ||
errorMessage.includes('Unauthorized')`. -/
def msgIsUnauthorized (msg : String) : Bool :=
  jsIncludes msg ("401") || jsIncludes msg ("Unauthorized")

/-! ### Decimal numbers

JSON number literals are decimal; we model the value of a literal
exactly as `mant * 10 ^ exp10` (an idealization of the float64 value
`JSON.parse` would produce; the numbers appearing in the claims are
small integers, represented exactly by both). -/

/-- Exact decimal value `mant * 10 ^ exp10` of a JSON number literal. -/
structure Dec where
  mant : Int
  exp10 : Int
deriving Repr, DecidableEq

/-- Integer value of a decimal, when it is an integer. -/
def Dec.toIntVal (d : Dec) : Option Int :=
  if 0 ≤ d.exp10 then some (d.mant * 10 ^ d.exp10.toNat)
  else if d.mant % 10 ^ (-d.exp10).toNat = 0 then
    some (d.mant / 10 ^ (-d.exp10).toNat)
  else none

/-- Math.floor((d - now) / 1000) for a decimal-encoded value `d`
(used by `getExpiresInFromJwt`; `Int.fdiv` is floor division). -/
def Dec.floorSubDiv1000 (d : Dec) (now : Int) : Int :=
  if 0 ≤ d.exp10 then Int.fdiv (d.mant * 10 ^ d.exp10.toNat - now) 1000
  else Int.fdiv (d.mant - now * 10 ^ (-d.exp10).toNat)
        (1000 * 10 ^ (-d.exp10).toNat)

/-! ### JSON model (for the builtin `JSON.parse`) -/

/-- JSON values, with object members kept in textual order (duplicate
keys allowed; property access takes the last one, as in JS). -/
inductive Json where
  | null
  | bool (b : Bool)
  | num (d : Dec)
  | str (s : String)
  | arr (xs : List Json)
  | obj (members : List (String × Json))

/-- Drop leading JSON whitespace. -/
def skipWs : List Char → List Char
  | c :: cs =>
    if c = (' ') ∨ c = ('\t') ∨ c = ('\n') ∨ c = ('\r') then skipWs cs
    else c :: cs
  | [] => []

/-- Hex digit value. -/
def hexVal (c : Char) : Option Nat :=
  if ('0') ≤ c ∧ c ≤ ('9') then some (c.toNat - 48)
  else if ('a') ≤ c ∧ c ≤ ('f') then some (c.toNat - 87)
  else if ('A') ≤ c ∧ c ≤ ('F') then some (c.toNat - 55)
  else none

/-- Body of a JSON string literal, after the opening quote: returns the
decoded characters and the remaining input after the closing quote. -/
def parseStringBody : List Char → Option (List Char × List Char)
  | [] => none
  | '"' :: rest => some ([], rest)
  | '\\' :: esc =>
    match esc with
    | '"' :: rest => (parseStringBody rest).map (fun p => ('"' :: p.1, p.2))
    | '\\' :: rest => (parseStringBody rest).map (fun p => ('\\' :: p.1, p.2))
    | '/' :: rest => (parseStringBody rest).map (fun p => ('/' :: p.1, p.2))
    | 'b' :: rest => (parseStringBody rest).map (fun p => (Char.ofNat 8 :: p.1, p.2))
    | 'f' :: rest => (parseStringBody rest).map (fun p => (Char.ofNat 12 :: p.1, p.2))
    | 'n' :: rest => (parseStringBody rest).map (fun p => ('\n' :: p.1, p.2))
    | 'r' :: rest => (parseStringBody rest).map (fun p => ('\r' :: p.1, p.2))
    | 't' :: rest => (parseStringBody rest).map (fun p => ('\t' :: p.1, p.2))
    | 'u' :: h1 :: h2 :: h3 :: h4 :: rest =>
      match hexVal h1, hexVal h2, hexVal h3, hexVal h4 with
      | some a, some b, some c, some d =>
        (parseStringBody rest).map
          (fun p => (Char.ofNat (a * 4096 + b * 256 + c * 16 + d) :: p.1, p.2))
      | _, _, _, _ => none
    | _ => none
  | c :: rest =>
    if c.toNat < 32 then none
    else (parseStringBody rest).map (fun p => (c :: p.1, p.2))

/-- Digits of a decimal literal as a natural number. -/
def digitsToNat (ds : List Char) : Nat :=
  ds.foldl (fun acc c => acc * 10 + (c.toNat - 48)) 0

/-- Fraction and exponent continuation of a JSON number whose integer
part has value `ip` (with sign `neg`). -/
def parseNumTail (neg : Bool) (ip : Nat) (cs : List Char) :
    Option (Dec × List Char) :=
  let fracStep : Option (List Char × List Char) :=
    match cs with
    | '.' :: rest =>
      match rest.span Char.isDigit with
      | ([], _) => none
      | (ds, rest2) => some (ds, rest2)
    | _ => some ([], cs)
  match fracStep with
  | none => none
  | some (fracDs, cs2) =>
    let mantNat : Nat := ip * 10 ^ fracDs.length + digitsToNat fracDs
    let mant : Int := if neg then -(mantNat : Int) else (mantNat : Int)
    let baseExp : Int := -(fracDs.length : Int)
    match cs2 with
    | 'e' :: rest => parseExpTail mant baseExp rest
    | 'E' :: rest => parseExpTail mant baseExp rest
    | _ => some (⟨mant, baseExp⟩, cs2)
where
  /-- Exponent continuation, after the `e`. -/
  parseExpTail (mant baseExp : Int) (cs : List Char) :
      Option (Dec × List Char) :=
    let signed : Bool × List Char :=
      match cs with
      | '-' :: rest => (true, rest)
      | '+' :: rest => (false, rest)
      | _ => (false, cs)
    match (signed.2).span Char.isDigit with
    | ([], _) => none
    | (ds, rest2) =>
      let e : Int := if signed.1 then -(digitsToNat ds : Int) else (digitsToNat ds : Int)
      some (⟨mant, baseExp + e⟩, rest2)

/-- JSON number literal (grammar `-? int frac? exp?`; a leading zero may
not be followed by more integer digits). -/
def parseNumber (cs : List Char) : Option (Dec × List Char) :=
  let signed : Bool × List Char :=
    match cs with
    | '-' :: rest => (true, rest)
    | _ => (false, cs)
  match signed.2 with
  | '0' :: rest => parseNumTail signed.1 0 rest
  | c :: rest =>
    if c.isDigit then
      match rest.span Char.isDigit with
      | (ds, rest2) => parseNumTail signed.1 (digitsToNat (c :: ds)) rest2
    else none
  | [] => none

mutual

/-- JSON value (fueled recursive-descent; fuel only bounds bracket
nesting and is chosen large enough by `jsonParseChars`). -/
def parseValue : Nat → List Char → Option (Json × List Char)
  | 0, _ => none
  | fuel + 1, cs =>
    match skipWs cs with
    | 'n' :: 'u' :: 'l' :: 'l' :: rest => some (.null, rest)
    | 't' :: 'r' :: 'u' :: 'e' :: rest => some (.bool true, rest)
    | 'f' :: 'a' :: 'l' :: 's' :: 'e' :: rest => some (.bool false, rest)
    | '"' :: rest =>
      (parseStringBody rest).map (fun p => (.str (String.mk p.1), p.2))
    | '[' :: rest =>
      match skipWs rest with
      | ']' :: rest2 => some (.arr [], rest2)
      | cs2 => (parseElements fuel cs2).map (fun p => (.arr p.1, p.2))
    | '{' :: rest =>
      match skipWs rest with
      | '}' :: rest2 => some (.obj [], rest2)
      | cs2 => (parseMembers fuel cs2).map (fun p => (.obj p.1, p.2))
    | cs2 => (parseNumber cs2).map (fun p => (.num p.1, p.2))

/-- Non-empty comma-separated array elements up to the closing bracket. -/
def parseElements : Nat → List Char → Option (List Json × List Char)
  | 0, _ => none
  | fuel + 1, cs => do
    let (v, rest) ← parseValue fuel cs
    match skipWs rest with
    | ',' :: rest2 => do
      let (vs, rest3) ← parseElements fuel rest2
      pure (v :: vs, rest3)
    | ']' :: rest2 => pure ([v], rest2)
    | _ => none

/-- Non-empty comma-separated object members up to the closing brace. -/
def parseMembers : Nat → List Char → Option (List (String × Json) × List Char)
  | 0, _ => none
  | fuel + 1, cs =>
    match skipWs cs with
    | '"' :: rest => do
      let (k, rest1) ← parseStringBody rest
      match skipWs rest1 with
      | ':' :: rest2 => do
        let (v, rest3) ← parseValue fuel rest2
        match skipWs rest3 with
        | ',' :: rest4 => do
          let (ms, rest5) ← parseMembers fuel rest4
          pure ((String.mk k, v) :: ms, rest5)
        | '}' :: rest4 => pure ([(String.mk k, v)], rest4)
        | _ => none
      | _ => none
    | _ => none

end

/-- Model of the builtin `JSON.parse`: the whole input must be one JSON
value (with surrounding whitespace), otherwise a parse error (`none`). -/
def jsonParseChars (cs : List Char) : Option Json :=
  match parseValue (2 * cs.length + 1) cs with
  | some (v, rest) => if skipWs rest = [] then some v else none
  | none => none

/-- JS property access `obj[k]` on a parsed JSON value: objects yield
their last member with the key (later duplicates win); every other
value yields nothing (accessing a property of `null` throws, which the
caller's `catch` turns into the same `none`). -/
def jlookup : Json → String → Option Json
  | .obj members, k => ((members.filter (fun m => m.1 = k)).getLast?).map (fun m => m.2)
  | _, _ => none

/-! ### Base64 (the builtin `atob`, HTML forgiving-base64 decode) -/

/-- Value of a standard base64 alphabet character. -/
def b64CharVal (c : Char) : Option Nat :=
  if ('A') ≤ c ∧ c ≤ ('Z') then some (c.toNat - 65)
  else if ('a') ≤ c ∧ c ≤ ('z') then some (c.toNat - 97 + 26)
  else if ('0') ≤ c ∧ c ≤ ('9') then some (c.toNat - 48 + 52)
  else if c = ('+') then some 62
  else if c = ('/') then some 63
  else none

/-- Remove one or two trailing padding characters. -/
def stripPad (cs : List Char) : List Char :=
  match cs.reverse with
  | '=' :: '=' :: rest => rest.reverse
  | '=' :: rest => rest.reverse
  | _ => cs

/-- Bytes of a base64 sexbit sequence; a final group of two characters
yields one byte and a final group of three yields two; a lone trailing
character is an error. -/
def b64Chunks : List Nat → Option (List Nat)
  | [] => some []
  | [_] => none
  | [a, b] => some [a * 4 + b / 16]
  | [a, b, c] => some [a * 4 + b / 16, b % 16 * 16 + c / 4]
  | a :: b :: c :: d :: rest =>
    (b64Chunks rest).map
      (fun t => (a * 4 + b / 16) :: (b % 16 * 16 + c / 4) :: (c % 4 * 64 + d) :: t)

/-- Model of the builtin `atob`: strip ASCII whitespace, strip up to two
trailing padding characters when the length is a multiple of four, then
decode; any other character is an error.  The decoded bytes are returned
as latin-1 characters, as `atob` does. -/
def atobChars (cs0 : List Char) : Option (List Char) :=
  let cs1 := cs0.filter
    (fun c => !(c = (' ') || c = ('\t') || c = ('\n') || c = ('\x0c') || c = ('\r')))
  let cs2 := if cs1.length % 4 = 0 then stripPad cs1 else cs1
  match cs2.mapM b64CharVal with
  | none => none
  | some vals => (b64Chunks vals).map (fun bytes => bytes.map Char.ofNat)

/-- Character translation of the source (a global replace of dash by
plus and of underscore by slash) turning base64url into standard
base64. -/
def b64urlMap (cs : List Char) : List Char :=
  cs.map (fun c => if c = ('-') then ('+') else if c = ('_') then ('/') else c)

/-! ### Token Codec (`getJwtExpiration`, `getExpiresInFromJwt`) -/

/-- Token Codec of the source: split the credential on dots, take the
second segment, base64url-decode it, `JSON.parse` it, and return
`exp * 1000` when a truthy (non-zero) `exp` member exists; every failure
is caught and collapses to `none`.  (The TS source annotates the parsed
payload as `\x7b exp?: number \x7d`; non-number `exp` values, which JS
would coerce, are outside that type and modelled as `none`.) -/
def getJwtExpiration (jwt : String) : Option Dec :=
  match (splitOnChar ('.') jwt.toList).get? 1 with
  | none => none
  | some payloadB64 =>
    if payloadB64 = [] then none
    else
      match atobChars (b64urlMap payloadB64) with
      | none => none
      | some payloadJson =>
        match jsonParseChars payloadJson with
        | none => none
        | some payload =>
          match jlookup payload ("exp") with
          | some (.num e) => if e.mant = 0 then none else some ⟨e.mant, e.exp10 + 3⟩
          | _ => none

/-- Derived helper of the source: remaining seconds until the decoded
expiry, floored at zero; `none` when the expiry is missing or falsy. -/
def getExpiresInFromJwt (now : Int) (jwt : String) : Option Int :=
  match getJwtExpiration jwt with
  | none => none
  | some d => if d.mant = 0 then none else some (max (d.floorSubDiv1000 now) 0)

/-! ### Session Manager data model -/

/-- User record built by `login` and stored in the session record. -/
structure User where
  userId : Int
  mobileNumber : String
  email : String
  firstName : String
  isNewUser : Bool
deriving Repr, DecidableEq

/-- In-memory `AuthState` of the provider. -/
structure AuthState where
  isAuthenticated : Bool
  isLoading : Bool
  user : Option User
  accessToken : Option String
  refreshTokenStr : Option String
  guestToken : Option String
deriving Repr, DecidableEq

/-- Initial state passed to `useState`. -/
def initialAuthState : AuthState :=
  { isAuthenticated := false, isLoading := true, user := none,
    accessToken := none, refreshTokenStr := none, guestToken := none }

/-- Parsed shape of the persisted record as read back from storage;
fields may be empty strings or a missing user, which the restore path
rejects.  (`expiresAt` is epoch milliseconds.) -/
structure StoredAuthRaw where
  accessToken : String
  refreshTokenStr : String
  user : Option User
  expiresAt : Int
deriving Repr, DecidableEq

/-- Validated persisted record (`StoredAuthData` of the source). -/
structure StoredAuthData where
  accessToken : String
  refreshTokenStr : String
  user : User
  expiresAt : Int
deriving Repr, DecidableEq

/-- Contents of `localStorage` under the key `cashkaro_auth`: absent,
present but not parseable as JSON, or parsed into a record shape. -/
inductive StorageCell where
  | empty
  | unparsable
  | parsed (d : StoredAuthRaw)
deriving Repr, DecidableEq

/-- Pending refresh timer: the delay it was armed with and the
`currentRefreshToken` / `currentAccessToken` captured by its callback. -/
structure PendingRefresh where
  delayMs : Int
  refreshTok : String
  accessTok : String
deriving Repr, DecidableEq

/-- Whole observable state of the Session Manager: the in-memory
`AuthState`, the durable storage cell, and the at-most-one pending
refresh timer. -/
structure World where
  state : AuthState
  storage : StorageCell
  timer : Option PendingRefresh
deriving Repr, DecidableEq

/-! ### Session Manager operations -/

/-- Operation `clearAuth`: remove the persisted record, cancel any
pending refresh timer, and drop the authenticated fields, keeping
`guestToken` and `isLoading`. -/
def clearAuth (w : World) : World :=
  { state :=
      { w.state with
        isAuthenticated := false, user := none,
        accessToken := none, refreshTokenStr := none },
    storage := .empty,
    timer := none }

/-- Operation `logout` just delegates to `clearAuth`. -/
def logout (w : World) : World :=
  clearAuth w

/-- Operation `saveAuthToStorage`: overwrite the storage cell with the
serialized record. -/
def saveAuthToStorage (accessToken refreshTokenStr : String) (user : User)
    (expiresAt : Int) : StorageCell :=
  .parsed ⟨accessToken, refreshTokenStr, some user, expiresAt⟩

/-- Operation `restoreAuthFromStorage`: read the cell; a missing cell
yields nothing; a parse failure or a record with an empty token or no
user is removed from storage and yields nothing; otherwise the record is
returned and the cell is untouched. -/
def restoreAuthFromStorage : StorageCell → Option StoredAuthData × StorageCell
  | .empty => (none, .empty)
  | .unparsable => (none, .empty)
  | .parsed d =>
    match d.user with
    | none => (none, .empty)
    | some u =>
      if d.accessToken = ("") ∨ d.refreshTokenStr = ("") then (none, .empty)
      else (some ⟨d.accessToken, d.refreshTokenStr, u, d.expiresAt⟩, .parsed d)

/-- Delay in milliseconds the refresh timer is armed with:
`Math.max((expiresIn - 120) * 1000, 60000)`. -/
def refreshDelay (expiresIn : Int) : Int :=
  max ((expiresIn - 120) * 1000) 60000

/-- Timer armed by `setupUserTokenRefresh` for the given expiry and the
tokens its callback captures. -/
def armTimer (expiresIn : Int) (currentRefreshToken currentAccessToken : String) :
    PendingRefresh :=
  ⟨refreshDelay expiresIn, currentRefreshToken, currentAccessToken⟩

/-- Operation `setupUserTokenRefresh` (the synchronous part): clear any
pending timer and arm a new one. -/
def setupUserTokenRefresh (expiresIn : Int)
    (currentRefreshToken currentAccessToken : String) (w : World) : World :=
  { w with timer := some (armTimer expiresIn currentRefreshToken currentAccessToken) }

/-- Outcome of one Token Service `refreshTokenApi` call, injected into
the model: the reply attributes on success, the error message on
failure. -/
inductive RefreshResult where
  | success (access_token refresh_token : String) (expires_in : Option Int)
  | failure (msg : String)
deriving Repr, DecidableEq

/-- Body of the refresh timer callback inside `setupUserTokenRefresh`,
run when the timer fires (so no timer is pending unless re-armed):
on success, the `setState` updater skips both the state update and the
storage write when no user is present, otherwise it persists the new
pair (with a newly computed expiry) and swaps the in-memory tokens; a
determinable next expiry re-arms the timer.  On failure, a message
containing `401` or `Unauthorized` triggers `clearAuth`; any other
failure re-arms the timer via `setupUserTokenRefresh(60, ...)` with the
same captured tokens. -/
def fireRefresh (currentRefreshToken currentAccessToken : String) (now : Int)
    (res : RefreshResult) (w : World) : World :=
  match res with
  | .failure msg =>
    if msgIsUnauthorized msg then clearAuth w
    else setupUserTokenRefresh 60 currentRefreshToken currentAccessToken
      { w with timer := none }
  | .success newAT newRT expIn =>
    let newExpiresIn : Option Int :=
      match expIn with
      | some e => some e
      | none => getExpiresInFromJwt now newAT
    let w1 : World :=
      match w.state.user with
      | none => w
      | some u =>
        let expiresAt : Int :=
          match newExpiresIn with
          | some e => if e = 0 then now + 3600000 else now + e * 1000
          | none => now + 3600000
        { w with
          storage := saveAuthToStorage newAT newRT u expiresAt,
          state :=
            { w.state with
              accessToken := some newAT, refreshTokenStr := some newRT } }
    match newExpiresIn with
    | some e => setupUserTokenRefresh e newRT newAT w1
    | none => { w1 with timer := none }

/-- Iterated timer-driven refresh attempts that all fail with the same
message (each retry captures the same tokens). -/
def iterTransient (currentRefreshToken currentAccessToken : String) (now : Int)
    (msg : String) : Nat → World → World
  | 0, w => w
  | n + 1, w =>
    iterTransient currentRefreshToken currentAccessToken now msg n
      (fireRefresh currentRefreshToken currentAccessToken now (.failure msg) w)

/-- Observable bootstrap events in program order. -/
inductive Event where
  | refreshCall
  | guestFetch
  | loadingResolved
deriving Repr, DecidableEq

/-- Guest-only tail of `initAuth`: fetch a guest token (`guestRes` is
the injected outcome, `none` for a rejection) and resolve loading; the
catch branch also resolves loading. -/
def guestBootstrap (storage : StorageCell) (guestRes : Option String) :
    World × List Event :=
  match guestRes with
  | some t =>
    (⟨{ initialAuthState with guestToken := some t, isLoading := false },
      storage, none⟩, [Event.guestFetch, Event.loadingResolved])
  | none =>
    (⟨{ initialAuthState with isLoading := false }, storage, none⟩,
     [Event.guestFetch, Event.loadingResolved])

/-- Bootstrap `initAuth`, run once at mount from `initialAuthState` with
no timer pending.  `refreshRes` is the injected outcome of the Token
Service refresh call (used only when the stored record is within the
expiry buffer) and `guestRes` the injected guest-token outcome.  Events
are recorded in program order; in the restore branches the guest fetch
is fire-and-forget, after loading is resolved. -/
def initAuth (storage0 : StorageCell) (now : Int) (refreshRes : RefreshResult)
    (guestRes : Option String) : World × List Event :=
  match restoreAuthFromStorage storage0 with
  | (some storedAuth, storage1) =>
    if storedAuth.expiresAt < now + 300000 then
      match refreshRes with
      | .success newAT newRT expIn =>
        let newExpiresIn : Option Int :=
          match expIn with
          | some e => some e
          | none => getExpiresInFromJwt now newAT
        let expiresAt : Int :=
          match newExpiresIn with
          | some e => if e = 0 then now + 3600000 else now + e * 1000
          | none => now + 3600000
        let st : AuthState :=
          { isAuthenticated := true, isLoading := false,
            user := some storedAuth.user,
            accessToken := some newAT, refreshTokenStr := some newRT,
            guestToken := guestRes }
        let tmr : Option PendingRefresh :=
          match newExpiresIn with
          | some e => some (armTimer e newRT newAT)
          | none => none
        (⟨st, saveAuthToStorage newAT newRT storedAuth.user expiresAt, tmr⟩,
         [Event.refreshCall, Event.loadingResolved, Event.guestFetch])
      | .failure _ =>
        let g := guestBootstrap .empty guestRes
        (g.1, Event.refreshCall :: g.2)
    else
      let st : AuthState :=
        { isAuthenticated := true, isLoading := false,
          user := some storedAuth.user,
          accessToken := some storedAuth.accessToken,
          refreshTokenStr := some storedAuth.refreshTokenStr,
          guestToken := guestRes }
      let remainingTime := Int.fdiv (storedAuth.expiresAt - now) 1000
      (⟨st, storage1,
        some (armTimer remainingTime storedAuth.refreshTokenStr storedAuth.accessToken)⟩,
       [Event.loadingResolved, Event.guestFetch])
  | (none, storage1) => guestBootstrap storage1 guestRes

/-- Payload accepted by `login`. -/
structure LoginData where
  access_token : String
  refresh_token : String
  user_id : Int
  mobile_number : String
  email : String
  first_name : String
  is_new_user : Bool
  expires_in : Option Int
deriving Repr, DecidableEq

/-- User record `login` builds from its payload. -/
def loginUser (d : LoginData) : User :=
  ⟨d.user_id, d.mobile_number, d.email, d.first_name, d.is_new_user⟩

/-- Expiry-seconds value computed by `login`: the provided `expires_in`
when it is a number, else the value decoded from the access token. -/
def loginExpiresIn (d : LoginData) (now : Int) : Option Int :=
  match d.expires_in with
  | some e => some e
  | none => getExpiresInFromJwt now d.access_token

/-- Expiry instant computed by `login`: one hour from now when
`expiresIn` is missing or falsy (zero), else `now + expiresIn * 1000`. -/
def loginExpiresAt (d : LoginData) (now : Int) : Int :=
  match loginExpiresIn d now with
  | some e => if e = 0 then now + 3600000 else now + e * 1000
  | none => now + 3600000

/-- Operation `login`: build the user, compute `expiresIn` (provided
`expires_in` if it is a number, else decoded from the access token),
compute `expiresAt` with a one-hour default for a missing or falsy
`expiresIn`, persist, set the authenticated state, and re-arm the timer
exactly when `expiresIn` is a number (otherwise scheduling is skipped
and a pending timer is left as it was). -/
def login (d : LoginData) (now : Int) (w : World) : World :=
  let user := loginUser d
  let expiresIn : Option Int := loginExpiresIn d now
  let expiresAt : Int := loginExpiresAt d now
  let w1 : World :=
    { w with
      storage := saveAuthToStorage d.access_token d.refresh_token user expiresAt,
      state :=
        { w.state with
          isAuthenticated := true,
          accessToken := some d.access_token,
          refreshTokenStr := some d.refresh_token,
          user := some user } }
  match expiresIn with
  | some e => setupUserTokenRefresh e d.refresh_token d.access_token w1
  | none => w1

/-- Invariant of the spec: the three authenticated fields are present or
absent together. -/
def allOrNone (s : AuthState) : Prop :=
  s.user.isSome = s.accessToken.isSome ∧ s.user.isSome = s.refreshTokenStr.isSome

instance (s : AuthState) : Decidable (allOrNone s) := by
  unfold allOrNone; infer_instance

/-! ### Sample values used by witness theorems -/

/-- Sample user record. -/
def sampleUser : User := ⟨7, "9876543210", "u@example.com", "F", false⟩

/-- Sample fully authenticated world with a pending timer. -/
def sampleAuthedWorld : World :=
  ⟨{ isAuthenticated := true, isLoading := false, user := some sampleUser,
     accessToken := some "a0", refreshTokenStr := some "r0",
     guestToken := some "g0" },
   .parsed ⟨"a0", "r0", some sampleUser, 7200000⟩,
   some ⟨60000, "r0", "a0"⟩⟩

/-- Sample logged-out world (no user) with a guest token. -/
def sampleGuestWorld : World :=
  ⟨{ initialAuthState with isLoading := false, guestToken := some "g0" },
   .empty, none⟩

/-! ### Theorems -/

/-- Multiplying out the delay formula. -/
theorem refreshDelay_eq (e : Int) : refreshDelay e = 1000 * max (e - 120) 60 := by
  unfold refreshDelay
  simp only [max_def]
  split <;> split <;> omega

/-- C5: for every `expiresInSeconds` value supplied to the scheduler, the
timer is armed with a delay of exactly `max(expiresIn - 120, 60)` seconds
(in milliseconds), capturing the supplied tokens; in particular 130 yields
60 seconds and 3600 yields 3480 seconds. -/
theorem refresh_timer_delay_formula :
    (∀ (e : Int) (rt atk : String) (w : World),
        (setupUserTokenRefresh e rt atk w).timer =
          some ⟨1000 * max (e - 120) 60, rt, atk⟩)
  ∧ refreshDelay 130 = 60000 ∧ refreshDelay 3600 = 3480000 := by
  refine ⟨fun e rt atk w => ?_, by decide, by decide⟩
  simp [setupUserTokenRefresh, armTimer, refreshDelay_eq]

/-- C9: `logout` is idempotent — applied twice it gives the same world as
applied once — and yields an empty session (no user or tokens, storage
cleared, timer cancelled) while leaving `guestToken` unchanged. -/
theorem logout_idempotent :
    ∀ w : World,
      logout (logout w) = logout w ∧
      (logout w).state.isAuthenticated = false ∧
      (logout w).state.user = none ∧
      (logout w).state.accessToken = none ∧
      (logout w).state.refreshTokenStr = none ∧
      (logout w).storage = StorageCell.empty ∧
      (logout w).timer = none ∧
      (logout w).state.guestToken = w.state.guestToken :=
  fun _ => ⟨rfl, rfl, rfl, rfl, rfl, rfl, rfl, rfl⟩

/-- C2: a timer-driven refresh failing with an unauthorized error (message
containing `401` or `Unauthorized`) performs the equivalent of `logout()`:
authenticated fields cleared, record removed from storage, timer
cancelled. -/
theorem unauthorized_refresh_clears_session :
    ∀ (rt atk : String) (now : Int) (msg : String) (w : World),
      msgIsUnauthorized msg = true →
      fireRefresh rt atk now (.failure msg) w = clearAuth w ∧
      (fireRefresh rt atk now (.failure msg) w).state.isAuthenticated = false ∧
      (fireRefresh rt atk now (.failure msg) w).state.user = none ∧
      (fireRefresh rt atk now (.failure msg) w).state.accessToken = none ∧
      (fireRefresh rt atk now (.failure msg) w).state.refreshTokenStr = none ∧
      (fireRefresh rt atk now (.failure msg) w).storage = StorageCell.empty ∧
      (fireRefresh rt atk now (.failure msg) w).timer = none := by
  intro rt atk now msg w h
  simp [fireRefresh, h, clearAuth]

/-- C2 witness at a concrete unauthorized failure. -/
theorem unauthorized_refresh_clears_session_witness :
    msgIsUnauthorized ("Unauthorized") = true ∧
    (fireRefresh ("r0") ("a0") 0 (.failure ("Unauthorized")) sampleAuthedWorld
      = clearAuth sampleAuthedWorld ∧
     (fireRefresh ("r0") ("a0") 0 (.failure ("Unauthorized")) sampleAuthedWorld).state.isAuthenticated = false ∧
     (fireRefresh ("r0") ("a0") 0 (.failure ("Unauthorized")) sampleAuthedWorld).state.user = none ∧
     (fireRefresh ("r0") ("a0") 0 (.failure ("Unauthorized")) sampleAuthedWorld).state.accessToken = none ∧
     (fireRefresh ("r0") ("a0") 0 (.failure ("Unauthorized")) sampleAuthedWorld).state.refreshTokenStr = none ∧
     (fireRefresh ("r0") ("a0") 0 (.failure ("Unauthorized")) sampleAuthedWorld).storage = StorageCell.empty ∧
     (fireRefresh ("r0") ("a0") 0 (.failure ("Unauthorized")) sampleAuthedWorld).timer = none) :=
  ⟨by decide,
   unauthorized_refresh_clears_session ("r0") ("a0") 0 ("Unauthorized")
     sampleAuthedWorld (by decide)⟩

/-- C3: a timer-driven refresh failing with a non-unauthorized error
leaves the session state and the persisted record unchanged and re-arms
the timer for 60 seconds with the same captured tokens; iterating such
transient failures any number of times still leaves state and storage
unchanged. -/
theorem transient_refresh_schedules_retry :
    ∀ (rt atk : String) (now : Int) (msg : String) (w : World),
      msgIsUnauthorized msg = false →
      (fireRefresh rt atk now (.failure msg) w).state = w.state ∧
      (fireRefresh rt atk now (.failure msg) w).storage = w.storage ∧
      (fireRefresh rt atk now (.failure msg) w).timer = some ⟨60000, rt, atk⟩ ∧
      (∀ n : Nat, (iterTransient rt atk now msg n w).state = w.state ∧
                  (iterTransient rt atk now msg n w).storage = w.storage) := by
  intro rt atk now msg w h
  have hfire : ∀ v : World,
      fireRefresh rt atk now (.failure msg) v =
        { v with timer := some ⟨60000, rt, atk⟩ } := by
    intro v
    simp [fireRefresh, h, setupUserTokenRefresh, armTimer]
    decide
  have haux : ∀ (n : Nat) (v : World),
      (iterTransient rt atk now msg n v).state = v.state ∧
      (iterTransient rt atk now msg n v).storage = v.storage := by
    intro n
    induction n with
    | zero => intro v; exact ⟨rfl, rfl⟩
    | succ k ih =>
      intro v
      simp only [iterTransient]
      rw [hfire v]
      exact ⟨(ih _).1, (ih _).2⟩
  refine ⟨?_, ?_, ?_, fun n => haux n w⟩ <;> rw [hfire w]

/-- C3 witness at a concrete transient failure. -/
theorem transient_refresh_schedules_retry_witness :
    msgIsUnauthorized ("network timeout") = false ∧
    ((fireRefresh ("r0") ("a0") 0 (.failure ("network timeout")) sampleAuthedWorld).state
       = sampleAuthedWorld.state ∧
     (fireRefresh ("r0") ("a0") 0 (.failure ("network timeout")) sampleAuthedWorld).storage
       = sampleAuthedWorld.storage ∧
     (fireRefresh ("r0") ("a0") 0 (.failure ("network timeout")) sampleAuthedWorld).timer
       = some ⟨60000, ("r0"), ("a0")⟩ ∧
     (∀ n : Nat,
       (iterTransient ("r0") ("a0") 0 ("network timeout") n sampleAuthedWorld).state
          = sampleAuthedWorld.state ∧
       (iterTransient ("r0") ("a0") 0 ("network timeout") n sampleAuthedWorld).storage
          = sampleAuthedWorld.storage)) :=
  ⟨by decide,
   transient_refresh_schedules_retry ("r0") ("a0") 0 ("network timeout")
     sampleAuthedWorld (by decide)⟩

/-- C10: a timer-driven refresh that succeeds while no user is present in
the in-memory state skips both the state update and the storage write:
state and persisted record are unchanged by the result. -/
theorem stale_refresh_success_skips_write :
    ∀ (rt atk nAT nRT : String) (now : Int) (expIn : Option Int) (w : World),
      w.state.user = none →
      (fireRefresh rt atk now (.success nAT nRT expIn) w).state = w.state ∧
      (fireRefresh rt atk now (.success nAT nRT expIn) w).storage = w.storage := by
  intro rt atk nAT nRT now expIn w h
  unfold fireRefresh
  simp only [h]
  cases expIn with
  | some e => simp [setupUserTokenRefresh]
  | none =>
    cases hd : getExpiresInFromJwt now nAT <;> simp [hd, setupUserTokenRefresh]

/-- C6 counterexample: a credential with only two dot-separated segments
whose second segment is the base64url JSON payload with `exp`
1700000000 decodes to 1700000000000, not to none — refuting the claim
that every credential with fewer than three dot-separated segments
decodes to none. -/
theorem token_codec_two_segment_cex :
    (splitOnChar ('.') ("x.eyJleHAiOiAxNzAwMDAwMDAwfQ").toList).length = 2 ∧
    (getJwtExpiration ("x.eyJleHAiOiAxNzAwMDAwMDAwfQ")).bind Dec.toIntVal
      = some 1700000000000 := by
  decide

/-- C6 (amended): a credential whose second dot-separated segment is the
base64url JSON payload with `exp` 1700000000 decodes to 1700000000000;
a credential with fewer than two dot-separated segments (no dot at all)
decodes to none; and a credential whose payload segment does not
base64-decode to valid JSON decodes to none. -/
theorem token_codec_properties :
    ((getJwtExpiration ("hdr.eyJleHAiOiAxNzAwMDAwMDAwfQ.sig")).bind Dec.toIntVal
        = some 1700000000000)
  ∧ (∀ jwt : String, (splitOnChar ('.') jwt.toList).length < 2 →
        getJwtExpiration jwt = none)
  ∧ (∀ (jwt : String) (p : List Char),
        (splitOnChar ('.') jwt.toList).get? 1 = some p →
        (∀ s : List Char, atobChars (b64urlMap p) = some s → jsonParseChars s = none) →
        getJwtExpiration jwt = none) := by
  refine ⟨by decide, ?_, ?_⟩
  · intro jwt h
    unfold getJwtExpiration
    rw [List.get?_eq_none.mpr (by omega)]
  · intro jwt p hp hnj
    unfold getJwtExpiration
    rw [hp]
    by_cases hpe : p = []
    · simp [hpe]
    · simp only [if_neg hpe]
      cases hA : atobChars (b64urlMap p) with
      | none => simp
      | some s => simp [hnj s hA]

/-- C6 witness: the no-dot and the non-JSON-payload cases at concrete
credentials. -/
theorem token_codec_properties_witness :
    ((splitOnChar ('.') ("abc").toList).length < 2 ∧ getJwtExpiration ("abc") = none)
  ∧ ((splitOnChar ('.') ("x.aGk.y").toList).get? 1 = some (("aGk").toList) ∧
      getJwtExpiration ("x.aGk.y") = none) :=
  ⟨⟨by decide, token_codec_properties.2.1 ("abc") (by decide)⟩,
   ⟨by decide,
    token_codec_properties.2.2 ("x.aGk.y") (("aGk").toList) (by decide)
      (by
        intro s hs
        have h2 : atobChars (b64urlMap (("aGk").toList)) = some (('h') :: ('i') :: []) := by
          decide
        rw [h2] at hs
        cases hs
        rfl)⟩⟩

/-- C7: bootstrapping from an unparsable record, or one missing a token
or the user, never authenticates, removes the record from storage, falls
back to guest-only bootstrap (no refresh call), and resolves loading. -/
theorem malformed_record_guest_fallback :
    ∀ (c : StorageCell) (now : Int) (rr : RefreshResult) (gr : Option String),
      (c = StorageCell.unparsable ∨
        ∃ d : StoredAuthRaw, c = StorageCell.parsed d ∧
          (d.accessToken = ("") ∨ d.refreshTokenStr = ("") ∨ d.user = none)) →
      (initAuth c now rr gr).1.state.isAuthenticated = false ∧
      (initAuth c now rr gr).1.state.user = none ∧
      (initAuth c now rr gr).1.storage = StorageCell.empty ∧
      (initAuth c now rr gr).1.state.isLoading = false ∧
      (initAuth c now rr gr).2.count Event.refreshCall = 0 := by
  intro c now rr gr h
  have hrestore : restoreAuthFromStorage c = (none, .empty) := by
    rcases h with h | ⟨d, rfl, hd⟩
    · subst h; rfl
    · cases hu : d.user with
      | none => simp [restoreAuthFromStorage, hu]
      | some u =>
        rcases hd with hd | hd | hd
        · simp [restoreAuthFromStorage, hu, hd]
        · simp [restoreAuthFromStorage, hu, hd]
        · rw [hu] at hd; cases hd
  unfold initAuth
  rw [hrestore]
  cases gr <;> simp [guestBootstrap, initialAuthState, List.count]

/-- C7 witness: a parsed record with an empty access token. -/
theorem malformed_record_guest_fallback_witness :
    ((StorageCell.parsed ⟨(""), ("r0"), some sampleUser, 0⟩) = StorageCell.unparsable ∨
      ∃ d : StoredAuthRaw,
        (StorageCell.parsed ⟨(""), ("r0"), some sampleUser, 0⟩) = StorageCell.parsed d ∧
        (d.accessToken = ("") ∨ d.refreshTokenStr = ("") ∨ d.user = none)) ∧
    ((initAuth (.parsed ⟨(""), ("r0"), some sampleUser, 0⟩) 0 (.failure ("x")) (some ("g"))).1.state.isAuthenticated = false ∧
     (initAuth (.parsed ⟨(""), ("r0"), some sampleUser, 0⟩) 0 (.failure ("x")) (some ("g"))).1.state.user = none ∧
     (initAuth (.parsed ⟨(""), ("r0"), some sampleUser, 0⟩) 0 (.failure ("x")) (some ("g"))).1.storage = StorageCell.empty ∧
     (initAuth (.parsed ⟨(""), ("r0"), some sampleUser, 0⟩) 0 (.failure ("x")) (some ("g"))).1.state.isLoading = false ∧
     (initAuth (.parsed ⟨(""), ("r0"), some sampleUser, 0⟩) 0 (.failure ("x")) (some ("g"))).2.count Event.refreshCall = 0) :=
  ⟨Or.inr ⟨⟨(""), ("r0"), some sampleUser, 0⟩, rfl, Or.inl rfl⟩,
   malformed_record_guest_fallback (.parsed ⟨(""), ("r0"), some sampleUser, 0⟩) 0
     (.failure ("x")) (some ("g"))
     (Or.inr ⟨⟨(""), ("r0"), some sampleUser, 0⟩, rfl, Or.inl rfl⟩)⟩

/-- C10 witness: a success arriving in the logged-out sample world. -/
theorem stale_refresh_success_skips_write_witness :
    sampleGuestWorld.state.user = none ∧
    ((fireRefresh ("r0") ("a0") 0 (.success ("na") ("nr") (some 100)) sampleGuestWorld).state
       = sampleGuestWorld.state ∧
     (fireRefresh ("r0") ("a0") 0 (.success ("na") ("nr") (some 100)) sampleGuestWorld).storage
       = sampleGuestWorld.storage) :=
  ⟨by decide,
   stale_refresh_success_skips_write ("r0") ("a0") ("na") ("nr") 0 (some 100)
     sampleGuestWorld (by decide)⟩

/-- C8: every operation of the Session Manager (`login`, `logout`, the
bootstrap `initAuth`, and a timer-driven refresh outcome) preserves the
invariant that user, access token, and refresh token are present or
absent together. -/
theorem session_ops_preserve_all_or_none :
    (∀ (d : LoginData) (now : Int) (w : World),
        allOrNone w.state → allOrNone (login d now w).state)
  ∧ (∀ w : World, allOrNone w.state → allOrNone (logout w).state)
  ∧ (∀ (c : StorageCell) (now : Int) (rr : RefreshResult) (gr : Option String),
        allOrNone (initAuth c now rr gr).1.state)
  ∧ (∀ (rt atk : String) (now : Int) (res : RefreshResult) (w : World),
        allOrNone w.state → allOrNone (fireRefresh rt atk now res w).state) := by
  refine ⟨?_, ?_, ?_, ?_⟩
  · intro d now w _
    unfold login
    cases loginExpiresIn d now <;> simp [setupUserTokenRefresh, allOrNone]
  · intro w _
    simp [logout, clearAuth, allOrNone]
  · intro c now rr gr
    cases c with
    | empty =>
      cases gr <;>
        simp [initAuth, restoreAuthFromStorage, guestBootstrap, allOrNone, initialAuthState]
    | unparsable =>
      cases gr <;>
        simp [initAuth, restoreAuthFromStorage, guestBootstrap, allOrNone, initialAuthState]
    | parsed dd =>
      cases hu : dd.user with
      | none =>
        cases gr <;>
          simp [initAuth, restoreAuthFromStorage, hu, guestBootstrap, allOrNone,
            initialAuthState]
      | some u =>
        by_cases hv : dd.accessToken = ("") ∨ dd.refreshTokenStr = ("")
        · cases gr <;>
            simp [initAuth, restoreAuthFromStorage, hu, hv, guestBootstrap, allOrNone,
              initialAuthState]
        · by_cases he : dd.expiresAt < now + 300000
          · cases rr with
            | success a r ei =>
              simp [initAuth, restoreAuthFromStorage, hu, hv, he, allOrNone]
            | failure m =>
              cases gr <;>
                simp [initAuth, restoreAuthFromStorage, hu, hv, he, guestBootstrap,
                  allOrNone, initialAuthState]
          · simp [initAuth, restoreAuthFromStorage, hu, hv, he, allOrNone]
  · intro rt atk now res w h
    cases res with
    | failure m =>
      by_cases hm : msgIsUnauthorized m
      · simp [fireRefresh, hm, clearAuth, allOrNone]
      · simpa [fireRefresh, hm, setupUserTokenRefresh] using h
    | success a r ei =>
      unfold fireRefresh
      cases hu : w.state.user with
      | none =>
        cases ei with
        | some e => simpa [setupUserTokenRefresh] using h
        | none =>
          cases hd : getExpiresInFromJwt now a <;>
            simpa [hd, setupUserTokenRefresh] using h
      | some u =>
        cases ei with
        | some e => simp [setupUserTokenRefresh, allOrNone, hu]
        | none =>
          cases hd : getExpiresInFromJwt now a <;>
            simp [hd, setupUserTokenRefresh, allOrNone, hu]

/-- C8 witness: the invariant holds in the sample world and is preserved
by a concrete refresh outcome there. -/
theorem session_ops_preserve_all_or_none_witness :
    allOrNone sampleAuthedWorld.state ∧
    allOrNone (fireRefresh ("r0") ("a0") 0 (.success ("na") ("nr") (some 100))
      sampleAuthedWorld).state ∧
    allOrNone (logout sampleAuthedWorld).state :=
  ⟨by decide,
   session_ops_preserve_all_or_none.2.2.2 ("r0") ("a0") 0
     (.success ("na") ("nr") (some 100)) sampleAuthedWorld (by decide),
   session_ops_preserve_all_or_none.2.1 sampleAuthedWorld (by decide)⟩

/-- C4 counterexample: a valid login payload without `expires_in` and
with an access token from which no expiry can be decoded authenticates
and persists, but no refresh timer is scheduled — refuting the claim
that the refresh timer is (re)scheduled for every valid login payload. -/
theorem login_missing_expiry_no_reschedule_cex :
    (login ⟨("tok"), ("ref"), 7, ("9876543210"), ("u@example.com"), ("F"), false, none⟩ 0
        ⟨initialAuthState, .empty, none⟩).timer = none ∧
    (login ⟨("tok"), ("ref"), 7, ("9876543210"), ("u@example.com"), ("F"), false, none⟩ 0
        ⟨initialAuthState, .empty, none⟩).state.isAuthenticated = true := by
  decide

/-- C4 (amended): after `login()` the state is authenticated with the
user built from the payload and the payload tokens; the persisted record
round-trips through the restore operation to the identical user/token
pair; `expiresIn` is the provided `expires_in` when present, else the
codec-decoded value; `expiresAt` is `now + expiresIn * 1000` for a
non-zero `expiresIn` and defaults to one hour from now when `expiresIn`
is zero or undeterminable; and the refresh timer is (re)scheduled
exactly when `expiresIn` was determined (provided or decoded), the
pending timer being left unchanged otherwise. -/
theorem login_effects :
    ∀ (d : LoginData) (now : Int) (w : World),
      d.access_token ≠ ("") → d.refresh_token ≠ ("") →
      (login d now w).state.isAuthenticated = true ∧
      (login d now w).state.user = some (loginUser d) ∧
      (login d now w).state.accessToken = some d.access_token ∧
      (login d now w).state.refreshTokenStr = some d.refresh_token ∧
      restoreAuthFromStorage (login d now w).storage =
        (some ⟨d.access_token, d.refresh_token, loginUser d, loginExpiresAt d now⟩,
         (login d now w).storage) ∧
      (∀ e : Int, d.expires_in = some e → loginExpiresIn d now = some e) ∧
      (d.expires_in = none →
        loginExpiresIn d now = getExpiresInFromJwt now d.access_token) ∧
      (∀ e : Int, loginExpiresIn d now = some e → e ≠ 0 →
        loginExpiresAt d now = now + e * 1000) ∧
      (loginExpiresIn d now = some 0 → loginExpiresAt d now = now + 3600000) ∧
      (loginExpiresIn d now = none → loginExpiresAt d now = now + 3600000) ∧
      (∀ e : Int, loginExpiresIn d now = some e →
        (login d now w).timer = some (armTimer e d.refresh_token d.access_token)) ∧
      (loginExpiresIn d now = none → (login d now w).timer = w.timer) := by
  intro d now w ha hr
  have hstate : (login d now w).state =
      { w.state with
        isAuthenticated := true,
        accessToken := some d.access_token,
        refreshTokenStr := some d.refresh_token,
        user := some (loginUser d) } := by
    unfold login
    cases loginExpiresIn d now <;> simp [setupUserTokenRefresh]
  have hstore : (login d now w).storage =
      saveAuthToStorage d.access_token d.refresh_token (loginUser d)
        (loginExpiresAt d now) := by
    unfold login
    cases loginExpiresIn d now <;> simp [setupUserTokenRefresh]
  refine ⟨by rw [hstate], by rw [hstate], by rw [hstate], by rw [hstate], ?_, ?_, ?_,
    ?_, ?_, ?_, ?_, ?_⟩
  · rw [hstore]
    simp [saveAuthToStorage, restoreAuthFromStorage, ha, hr]
  · intro e he
    simp [loginExpiresIn, he]
  · intro he
    simp [loginExpiresIn, he]
  · intro e he hne
    simp [loginExpiresAt, he, hne]
  · intro he
    simp [loginExpiresAt, he]
  · intro he
    simp [loginExpiresAt, he]
  · intro e he
    unfold login
    simp [he, setupUserTokenRefresh]
  · intro he
    unfold login
    simp [he]

/-- C4 witness at a concrete payload with `expires_in = 3600`. -/
theorem login_effects_witness :
    (("tok") : String) ≠ ("") ∧ (("ref") : String) ≠ ("") ∧
    ((login ⟨("tok"), ("ref"), 7, ("9876543210"), ("u@example.com"), ("F"), false, some 3600⟩ 0
        sampleGuestWorld).state.isAuthenticated = true ∧
     (login ⟨("tok"), ("ref"), 7, ("9876543210"), ("u@example.com"), ("F"), false, some 3600⟩ 0
        sampleGuestWorld).state.user =
       some (loginUser ⟨("tok"), ("ref"), 7, ("9876543210"), ("u@example.com"), ("F"), false, some 3600⟩) ∧
     (login ⟨("tok"), ("ref"), 7, ("9876543210"), ("u@example.com"), ("F"), false, some 3600⟩ 0
        sampleGuestWorld).state.accessToken = some ("tok") ∧
     (login ⟨("tok"), ("ref"), 7, ("9876543210"), ("u@example.com"), ("F"), false, some 3600⟩ 0
        sampleGuestWorld).state.refreshTokenStr = some ("ref") ∧
     restoreAuthFromStorage
        (login ⟨("tok"), ("ref"), 7, ("9876543210"), ("u@example.com"), ("F"), false, some 3600⟩ 0
          sampleGuestWorld).storage =
       (some ⟨("tok"), ("ref"),
          loginUser ⟨("tok"), ("ref"), 7, ("9876543210"), ("u@example.com"), ("F"), false, some 3600⟩,
          loginExpiresAt ⟨("tok"), ("ref"), 7, ("9876543210"), ("u@example.com"), ("F"), false, some 3600⟩ 0⟩,
        (login ⟨("tok"), ("ref"), 7, ("9876543210"), ("u@example.com"), ("F"), false, some 3600⟩ 0
          sampleGuestWorld).storage) ∧
     (∀ e : Int,
        (⟨("tok"), ("ref"), 7, ("9876543210"), ("u@example.com"), ("F"), false, some 3600⟩ : LoginData).expires_in = some e →
        loginExpiresIn ⟨("tok"), ("ref"), 7, ("9876543210"), ("u@example.com"), ("F"), false, some 3600⟩ 0 = some e) ∧
     ((⟨("tok"), ("ref"), 7, ("9876543210"), ("u@example.com"), ("F"), false, some 3600⟩ : LoginData).expires_in = none →
        loginExpiresIn ⟨("tok"), ("ref"), 7, ("9876543210"), ("u@example.com"), ("F"), false, some 3600⟩ 0 =
          getExpiresInFromJwt 0 ("tok")) ∧
     (∀ e : Int,
        loginExpiresIn ⟨("tok"), ("ref"), 7, ("9876543210"), ("u@example.com"), ("F"), false, some 3600⟩ 0 = some e →
        e ≠ 0 →
        loginExpiresAt ⟨("tok"), ("ref"), 7, ("9876543210"), ("u@example.com"), ("F"), false, some 3600⟩ 0 =
          0 + e * 1000) ∧
     (loginExpiresIn ⟨("tok"), ("ref"), 7, ("9876543210"), ("u@example.com"), ("F"), false, some 3600⟩ 0 = some 0 →
        loginExpiresAt ⟨("tok"), ("ref"), 7, ("9876543210"), ("u@example.com"), ("F"), false, some 3600⟩ 0 =
          0 + 3600000) ∧
     (loginExpiresIn ⟨("tok"), ("ref"), 7, ("9876543210"), ("u@example.com"), ("F"), false, some 3600⟩ 0 = none →
        loginExpiresAt ⟨("tok"), ("ref"), 7, ("9876543210"), ("u@example.com"), ("F"), false, some 3600⟩ 0 =
          0 + 3600000) ∧
     (∀ e : Int,
        loginExpiresIn ⟨("tok"), ("ref"), 7, ("9876543210"), ("u@example.com"), ("F"), false, some 3600⟩ 0 = some e →
        (login ⟨("tok"), ("ref"), 7, ("9876543210"), ("u@example.com"), ("F"), false, some 3600⟩ 0
          sampleGuestWorld).timer = some (armTimer e ("ref") ("tok"))) ∧
     (loginExpiresIn ⟨("tok"), ("ref"), 7, ("9876543210"), ("u@example.com"), ("F"), false, some 3600⟩ 0 = none →
        (login ⟨("tok"), ("ref"), 7, ("9876543210"), ("u@example.com"), ("F"), false, some 3600⟩ 0
          sampleGuestWorld).timer = sampleGuestWorld.timer)) :=
  ⟨by decide, by decide,
   login_effects ⟨("tok"), ("ref"), 7, ("9876543210"), ("u@example.com"), ("F"), false, some 3600⟩ 0
     sampleGuestWorld (by decide) (by decide)⟩

/-- C1 counterexample: a valid persisted record whose `expiresAt` is
exactly five minutes after the current instant — within five minutes
under the claim's inclusive reading — is restored directly with no
refresh call, because the code's buffer test is strict. -/
theorem bootstrap_expiry_buffer_boundary_cex :
    (initAuth (.parsed ⟨("at"), ("rt"), some sampleUser, 300000⟩) 0 (.failure ("network"))
        (some ("g"))).2.count Event.refreshCall = 0 ∧
    (initAuth (.parsed ⟨("at"), ("rt"), some sampleUser, 300000⟩) 0 (.failure ("network"))
        (some ("g"))).1.state.isAuthenticated = true := by
  decide

/-- C1 (amended): for a valid persisted record, bootstrap restores the
authenticated state directly with no refresh call when `expiresAt` is at
least `now + 300000` ms (five minutes or more away), and calls the
refresh operation exactly once — before loading resolves — when
`expiresAt` is strictly less than `now + 300000` ms. -/
theorem bootstrap_expiry_buffer :
    (∀ (d : StoredAuthRaw) (u : User) (now : Int) (rr : RefreshResult) (gr : Option String),
       d.user = some u → d.accessToken ≠ ("") → d.refreshTokenStr ≠ ("") →
       now + 300000 ≤ d.expiresAt →
       (initAuth (.parsed d) now rr gr).1.state.isAuthenticated = true ∧
       (initAuth (.parsed d) now rr gr).1.state.user = some u ∧
       (initAuth (.parsed d) now rr gr).1.state.accessToken = some d.accessToken ∧
       (initAuth (.parsed d) now rr gr).1.state.refreshTokenStr = some d.refreshTokenStr ∧
       (initAuth (.parsed d) now rr gr).1.state.isLoading = false ∧
       (initAuth (.parsed d) now rr gr).2.count Event.refreshCall = 0)
  ∧ (∀ (d : StoredAuthRaw) (u : User) (now : Int) (rr : RefreshResult) (gr : Option String),
       d.user = some u → d.accessToken ≠ ("") → d.refreshTokenStr ≠ ("") →
       d.expiresAt < now + 300000 →
       (initAuth (.parsed d) now rr gr).2.count Event.refreshCall = 1 ∧
       ((initAuth (.parsed d) now rr gr).2.takeWhile
           (fun e => e != Event.loadingResolved)).count Event.refreshCall = 1 ∧
       (initAuth (.parsed d) now rr gr).1.state.isLoading = false) := by
  constructor
  · intro d u now rr gr hu ha hr he
    have hnotlt : ¬ d.expiresAt < now + 300000 := by omega
    simp [initAuth, restoreAuthFromStorage, hu, ha, hr, hnotlt]
  · intro d u now rr gr hu ha hr he
    cases rr with
    | success a r ei =>
      simp [initAuth, restoreAuthFromStorage, hu, ha, hr, he]
    | failure m =>
      cases gr <;>
        simp [initAuth, restoreAuthFromStorage, hu, ha, hr, he, guestBootstrap]

/-- C1 witness: a record ten minutes away restores without refresh, and
a record two minutes away refreshes exactly once before loading
resolves. -/
theorem bootstrap_expiry_buffer_witness :
    ((StoredAuthRaw.user ⟨("at"), ("rt"), some sampleUser, 600000⟩ = some sampleUser ∧
      (0 : Int) + 300000 ≤ 600000) ∧
     ((initAuth (.parsed ⟨("at"), ("rt"), some sampleUser, 600000⟩) 0 (.failure ("x"))
         (some ("g"))).1.state.isAuthenticated = true ∧
      (initAuth (.parsed ⟨("at"), ("rt"), some sampleUser, 600000⟩) 0 (.failure ("x"))
         (some ("g"))).1.state.user = some sampleUser ∧
      (initAuth (.parsed ⟨("at"), ("rt"), some sampleUser, 600000⟩) 0 (.failure ("x"))
         (some ("g"))).1.state.accessToken = some ("at") ∧
      (initAuth (.parsed ⟨("at"), ("rt"), some sampleUser, 600000⟩) 0 (.failure ("x"))
         (some ("g"))).1.state.refreshTokenStr = some ("rt") ∧
      (initAuth (.parsed ⟨("at"), ("rt"), some sampleUser, 600000⟩) 0 (.failure ("x"))
         (some ("g"))).1.state.isLoading = false ∧
      (initAuth (.parsed ⟨("at"), ("rt"), some sampleUser, 600000⟩) 0 (.failure ("x"))
         (some ("g"))).2.count Event.refreshCall = 0)) ∧
    (((120000 : Int) < 0 + 300000) ∧
     ((initAuth (.parsed ⟨("at"), ("rt"), some sampleUser, 120000⟩) 0 (.failure ("network"))
         (some ("g"))).2.count Event.refreshCall = 1 ∧
      ((initAuth (.parsed ⟨("at"), ("rt"), some sampleUser, 120000⟩) 0 (.failure ("network"))
          (some ("g"))).2.takeWhile
            (fun e => e != Event.loadingResolved)).count Event.refreshCall = 1 ∧
      (initAuth (.parsed ⟨("at"), ("rt"), some sampleUser, 120000⟩) 0 (.failure ("network"))
         (some ("g"))).1.state.isLoading = false)) :=
  ⟨⟨⟨rfl, by decide⟩,
    bootstrap_expiry_buffer.1 ⟨("at"), ("rt"), some sampleUser, 600000⟩ sampleUser 0
      (.failure ("x")) (some ("g")) rfl (by decide) (by decide) (by decide)⟩,
   ⟨by decide,
    bootstrap_expiry_buffer.2 ⟨("at"), ("rt"), some sampleUser, 120000⟩ sampleUser 0
      (.failure ("network")) (some ("g")) rfl (by decide) (by decide) (by decide)⟩⟩

end CKAuth
